import Mathlib

/-!
Shallow embedding of `app/octopus_to_influxdb.py` (octograph).

Modelling conventions:
* Instants are minutes since the Unix epoch (`Int`).  The program's readings
  are half-hour aligned, so minute granularity loses nothing.
* A time zone is a fixed UTC offset in minutes (`Int`).  The source hands IANA
  zone names to the `maya` library; only the zone's offset enters the rate
  window arithmetic, so a fixed offset embeds the computation faithfully for
  any single reading.
* Configured clock times ("HH:MM" strings in the config) are minutes since
  midnight (`Int`).
* Floats are embedded as `ℚ`: the source performs only `*`, `+` and `/ 48`,
  and the claims are algebraic identities between those expressions.
* Python exceptions (maya's `ValueError`, click's `ClickException`) become
  `Except String`.
* Python dicts of fields/tags become association lists keyed by the literal
  dict keys, in insertion order; `dict.get`/`[]` is first-key lookup (keys in
  the source dicts are distinct).
-/

namespace Octograph

/-- Decidable equality of `Except` results, for evaluating the embedding on
concrete inputs. -/
instance {ε α : Type} [DecidableEq ε] [DecidableEq α] : DecidableEq (Except ε α) := fun a b =>
  match a, b with
  | .error e, .error f =>
    if h : e = f then isTrue (by rw [h]) else isFalse (fun he => by cases he; exact h rfl)
  | .ok x, .ok y =>
    if h : x = y then isTrue (by rw [h]) else isFalse (fun he => by cases he; exact h rfl)
  | .error _, .ok _ => isFalse (fun he => by cases he)
  | .ok _, .error _ => isFalse (fun he => by cases he)

/-- Python dict lookup on an association list (first matching key). -/
def getEntry {α : Type} : List (String × α) → String → Option α
  | [], _ => none
  | (k, v) :: rest, key => if k = key then some v else getEntry rest key

/-- Insert into a dict modelled as a function, overwriting the key. -/
def dictInsert {α : Type} (d : String → Option α) (k : String) (v : α) :
    String → Option α :=
  fun x => if x = k then some v else d x

/-! ### Time arithmetic (embedding the `maya` calls of the source)

`measurement_at.datetime(to_timezone=low_zone)` converts the instant to the
zone's local clock; `strftime('%Y-%m-%dT<clock>')` keeps only the local
calendar date and splices the configured clock string in; `maya.when(...,
timezone=low_zone)` reads that naive local datetime back as an instant.
With offset `off`, the local calendar day of instant `t` is
`(t + off).fdiv 1440`, and a naive local datetime `day, clock` denotes the
instant `day * 1440 + clock - off`. -/

/-- Local calendar day (days since the epoch) of instant `t` in offset `off`. -/
def localDay (off t : Int) : Int := (t + off).fdiv 1440

/-- Instant denoted by the reading's local calendar date (in offset `off`)
with clock time `clock` substituted — the window bound construction of
`active_rate_field` (and of the spec's Rate Window). -/
def low_window_bound (off clock t : Int) : Int :=
  localDay off t * 1440 + clock - off

/-- Two-digit zero-padded rendering of `0 ≤ n < 100`. -/
def pad2 (n : Int) : String :=
  if n < 10 then "0" ++ toString n else toString n

/-- Four-digit zero-padded rendering of a year. -/
def pad4 (n : Int) : String :=
  if n < 10 then "000" ++ toString n
  else if n < 100 then "00" ++ toString n
  else if n < 1000 then "0" ++ toString n
  else toString n

/-- Civil (proleptic Gregorian) date from days since 1970-01-01
(Hinnant's algorithm, as used by real datetime libraries). -/
def civilFromDays (z0 : Int) : Int × Int × Int :=
  let z := z0 + 719468
  let era := z.fdiv 146097
  let doe := z - era * 146097
  let yoe := (doe - doe.fdiv 1460 + doe.fdiv 36524 - doe.fdiv 146096).fdiv 365
  let y := yoe + era * 400
  let doy := doe - (365 * yoe + yoe.fdiv 4 - yoe.fdiv 100)
  let mp := (5 * doy + 2).fdiv 153
  let d := doy - (153 * mp + 2).fdiv 5 + 1
  let m := mp + (if mp < 10 then 3 else -9)
  (if m ≤ 2 then y + 1 else y, m, d)

/-- Embedding of `maya.parse(s).iso8601()`: canonical UTC ISO-8601 rendering of an
instant, e.g. "2023-01-01T00:30:00+00:00". -/
def iso8601 (t : Int) : String :=
  let day := t.fdiv 1440
  let ymd := civilFromDays day
  let minuteOfDay := t.emod 1440
  pad4 ymd.1 ++ "-" ++ pad2 ymd.2.1 ++ "-" ++ pad2 ymd.2.2 ++ "T" ++
    pad2 (minuteOfDay.fdiv 60) ++ ":" ++ pad2 (minuteOfDay.emod 60) ++ ":00+00:00"

/-- Renders a minute-of-day as `HH:MM`. -/
def hhmmOfMinute (m : Int) : String :=
  pad2 (m.fdiv 60) ++ ":" ++ pad2 (m.emod 60)

/-- Embedding of `maya.parse(x).datetime().strftime('%H:%M')` — maya's `datetime()` with
no argument yields the UTC datetime, so this is the UTC clock time. -/
def strftimeHM (t : Int) : String := hhmmOfMinute (t.emod 1440)

/-- Renders `HH:MM` of instant `t` viewed in the zone with offset `off` (the
rendering the spec describes for the `time_of_day` tag). -/
def localHM (off t : Int) : String := hhmmOfMinute ((t + off).emod 1440)

/-! ### Data model -/

/-- One consumption reading, as consumed by `store_series`:
`measurement['interval_start']` (parsed to an instant) and
`measurement['consumption']`. -/
structure Measurement where
  interval_start : Int
  consumption : ℚ
deriving DecidableEq

/-- The per-series `rate_data` dict built in `cmd`.  Electricity entries
carry the time-of-use and agile keys; the gas entry carries `unit_rate` and
`conversion_factor`.  One structure with defaults embeds both dicts; each
code path only reads the keys its series' dict has. -/
structure RateData where
  standing_charge : ℚ := 0
  unit_rate : ℚ := 0
  unit_rate_high : ℚ := 0
  unit_rate_low : ℚ := 0
  unit_rate_low_start : Int := 0
  unit_rate_low_end : Int := 0
  unit_rate_zone : Option Int := none
  agile_standing_charge : ℚ := 0
  agile_unit_rates : List (String × ℚ) := []
  conversion_factor : Option ℚ := none
deriving DecidableEq

/-- Embedding of `rate_data[rate]` for the three category strings `active_rate_field`
can return. -/
def rateValue (rate_data : RateData) (key : String) : ℚ :=
  if key = "unit_rate" then rate_data.unit_rate
  else if key = "unit_rate_high" then rate_data.unit_rate_high
  else if key = "unit_rate_low" then rate_data.unit_rate_low
  else 0

/-- The `agile_rates` dict comprehension of `store_series`:
`{point['valid_from']: point['value_inc_vat'] for point in agile_data}`
(later duplicates overwrite earlier ones). -/
def agileRatesDict (agile_data : List (String × ℚ)) : String → Option ℚ :=
  agile_data.foldl (fun d p => dictInsert d p.1 p.2) (fun _ => none)

/-! ### `active_rate_field` -/

/-- Embedding of `active_rate_field` of `store_series`.  Gas is always `unit_rate`; a
falsy (`none`) `unit_rate_zone` is always `unit_rate_high`; otherwise the
bounds `low_start`/`low_end` are built from the reading's local calendar
date and the configured clock times, `maya.MayaInterval(low_start, low_end)`
raises `ValueError` when `start > end`, and membership in a `MayaInterval`
is half-open (`start <= t < end`). -/
def active_rate_field (series : String) (rate_data : RateData)
    (measurement : Measurement) : Except String String :=
  if series = "gas" then .ok "unit_rate"
  else
    match rate_data.unit_rate_zone with
    | none => .ok "unit_rate_high"
    | some low_zone =>
      let measurement_at := measurement.interval_start
      let low_start := low_window_bound low_zone rate_data.unit_rate_low_start measurement_at
      let low_end := low_window_bound low_zone rate_data.unit_rate_low_end measurement_at
      if low_end < low_start then .error "MayaInterval cannot end before it starts"
      else if low_start ≤ measurement_at ∧ measurement_at < low_end then .ok "unit_rate_low"
      else .ok "unit_rate_high"

/-! ### `fields_for_measurement` -/

/-- The consumption after the `if conversion_factor:` guard of
`fields_for_measurement` — Python truthiness: `None` and `0.0` both skip
the multiplication. -/
def converted_consumption (rate_data : RateData) (measurement : Measurement) : ℚ :=
  match rate_data.conversion_factor with
  | some cf => if cf = 0 then measurement.consumption else measurement.consumption * cf
  | none => measurement.consumption

/-- Embedding of `fields_for_measurement` of `store_series`: the fields dict, with the
agile fields appended by `fields.update` only when `agile_data` is
non-empty (Python truthiness of the list). -/
def fields_for_measurement (series : String) (rate_data : RateData)
    (measurement : Measurement) : Except String (List (String × ℚ)) := do
  let consumption := converted_consumption rate_data measurement
  let rate ← active_rate_field series rate_data measurement
  let rate_cost := rateValue rate_data rate
  let cost := consumption * rate_cost
  let standing_charge := rate_data.standing_charge / 48
  let fields : List (String × ℚ) :=
    [("consumption", consumption), ("cost", cost),
     ("total_cost", cost + standing_charge), ("rate", rate_cost)]
  if rate_data.agile_unit_rates.isEmpty then
    return fields
  else
    let agile_standing_charge := rate_data.agile_standing_charge / 48
    let agile_unit_rate :=
      (agileRatesDict rate_data.agile_unit_rates
        (iso8601 measurement.interval_start)).getD rate_cost
    let agile_cost := agile_unit_rate * consumption
    return fields ++
      [("agile_rate", agile_unit_rate), ("agile_cost", agile_cost),
       ("agile_total_cost", agile_cost + agile_standing_charge)]

/-! ### `tags_for_measurement` and `store_series` -/

/-- Embedding of `tags_for_measurement` of `store_series`. -/
def tags_for_measurement (series : String) (rate_data : RateData)
    (account_name : String) (measurement : Measurement) :
    Except String (List (String × String)) := do
  let time := strftimeHM measurement.interval_start
  let rate ← active_rate_field series rate_data measurement
  return [("active_rate", rate), ("time_of_day", time), ("account_name", account_name)]

/-- One InfluxDB point of the `measurements` list comprehension. -/
structure Point where
  measurement : String
  tags : List (String × String)
  time : Int
  fields : List (String × ℚ)
deriving DecidableEq

/-- The point built for one reading (dict values evaluated in source order:
tags, then fields; `'time'` is the reading's `interval_start` verbatim). -/
def point_for_measurement (series : String) (account_name : String)
    (rate_data : RateData) (measurement : Measurement) : Except String Point := do
  let tags ← tags_for_measurement series rate_data account_name measurement
  let fields ← fields_for_measurement series rate_data measurement
  return { measurement := series, tags := tags,
           time := measurement.interval_start, fields := fields }

/-- A Python list comprehension whose body may raise: the first raise
propagates, otherwise the list of results. -/
def mapExcept {α β : Type} (f : α → Except String β) : List α → Except String (List β)
  | [] => .ok []
  | a :: rest => do
    let b ← f a
    let bs ← mapExcept f rest
    return b :: bs

/-- Embedding of `store_series` up to the `connection.write_points` call: the list of
points it writes (or the exception that aborts it). -/
def store_series (series : String) (account_name : String)
    (metrics : List Measurement) (rate_data : RateData) :
    Except String (List Point) :=
  mapExcept (point_for_measurement series account_name rate_data) metrics

/-! ### `retrieve_paginated_data`

One HTTP response: a `results` list and a `next` link (modelled by whether a
next page number can be extracted).  A fetch session is the list of
successive responses the server would return; `retrieve_paginated_data`
consumes them in fetch order, recursing exactly when the current response
has a `next` link. -/

structure Response (α : Type) where
  results : List α
  next : Option Nat
deriving DecidableEq

/-- Embedding of `retrieve_paginated_data`: `results = data['results']`, and when
`data['next']` is set, `results += retrieve_paginated_data(page=next_page)`. -/
def retrieve_paginated_data {α : Type} : List (Response α) → List α
  | [] => []
  | response :: rest =>
    let results := response.results
    match response.next with
    | some _ => results ++ retrieve_paginated_data rest
    | none => results

/-- A well-formed response chain: every response but the last carries a
`next` link and the last does not, so the recursion visits every page. -/
def chainOK {α : Type} : List (Response α) → Bool
  | [] => true
  | [response] => response.next.isNone
  | response :: rest => response.next.isSome && chainOK rest

/-! ### `cmd`: configuration checks and the order of network calls

`cmd` is IO glue; for the claims about it only the order of observable
events matters: network requests, `ClickException`s (which abort the run),
and batch writes.  The trace below lists, in program order, the events `cmd`
produces for a given configuration, stopping at the first exception.
Constructing the `InfluxDBClient` and the `maya.when` date parsing perform
no network activity. -/

/-- The configuration values `cmd` reads that decide its control flow
(`none` = option absent; present-but-empty strings are also falsy). -/
structure Config where
  api_key : String := ""
  e_mpan : Option String := none
  e_serial : Option String := none
  g_ignore : Bool := false
  g_mprn : Option String := none
  g_serial : Option String := none
deriving DecidableEq

/-- Python truthiness of an optional string: `None` and `""` are falsy. -/
def truthy : Option String → Bool
  | none => false
  | some s => s ≠ ""

/-- Observable events of a `cmd` run. -/
inductive Event where
  | networkCall (url : String)
  | clickError (msg : String)
  | writePoints (series : String)
deriving DecidableEq

def isNetworkCall : Event → Bool
  | .networkCall _ => true
  | _ => false

/-- The event trace of `cmd`, in source order: the API-key check, the
electricity-identifier check, the electricity standing-charge fetch, the
gas-identifier check, the gas rate fetches, the consumption/agile fetches
and writes.  A `clickError` ends the trace (the exception aborts the run). -/
def cmd (config : Config) : List Event :=
  if config.api_key = "" then
    [.clickError "No Octopus API key set"]
  else if !(truthy config.e_mpan && truthy config.e_serial) then
    [.clickError "No electricity meter identifiers"]
  else
    Event.networkCall "electricity-standing-charges" ::
    (if (!truthy config.g_mprn || !truthy config.g_serial) && !config.g_ignore then
      [.clickError "No gas meter identifiers"]
    else
      (if !config.g_ignore then
        [Event.networkCall "gas-standing-charges",
         Event.networkCall "gas-standard-unit-rates"]
      else []) ++
      [Event.networkCall "electricity-consumption",
       Event.networkCall "agile-standard-unit-rates",
       Event.writePoints "electricity"] ++
      (if !config.g_ignore then
        [Event.networkCall "gas-consumption", Event.writePoints "gas"]
      else []))

/-- The configuration-error conditions of claim C8: missing API key, or
missing meter identifiers for a series not marked ignored (gas is the only
ignorable series). -/
def missingConfig (config : Config) : Bool :=
  config.api_key = "" ||
  !(truthy config.e_mpan && truthy config.e_serial) ||
  ((!truthy config.g_mprn || !truthy config.g_serial) && !config.g_ignore)

/-! ### Claims under test, stated as written (for the ones the code refutes) -/

/-- Claim C2 as stated: with a configured zone, whenever the low-rate start
clock is not strictly earlier than the low-rate end clock (including the
equal case), rate resolution raises instead of returning a category. -/
def claimC2 : Prop :=
  ∀ (rate_data : RateData) (off : Int) (measurement : Measurement),
    rate_data.unit_rate_zone = some off →
    rate_data.unit_rate_low_end ≤ rate_data.unit_rate_low_start →
    ∃ e, active_rate_field "electricity" rate_data measurement = .error e

/-- Claim C5 as stated: the emitted consumption is the raw consumption
multiplied by `conversion_factor` iff the factor is set (non-null), and the
raw consumption exactly when it is unset. -/
def claimC5 : Prop :=
  ∀ (series : String) (rate_data : RateData) (measurement : Measurement)
    (fields : List (String × ℚ)),
    fields_for_measurement series rate_data measurement = .ok fields →
    (∀ cf, rate_data.conversion_factor = some cf →
      getEntry fields "consumption" = some (measurement.consumption * cf)) ∧
    (rate_data.conversion_factor = none →
      getEntry fields "consumption" = some measurement.consumption)

/-- Claim C8 as stated: for every configuration with a missing API key or
missing meter identifiers for a non-ignored series, the run reports an
error and no network activity occurs before (hence: at all, since the
exception ends the run). -/
def claimC8 : Prop :=
  ∀ config : Config, missingConfig config = true →
    (∃ msg, Event.clickError msg ∈ cmd config) ∧
    (cmd config).all (fun e => !isNetworkCall e) = true

/-- Claim C9 (first half) as stated: the `time_of_day` tag renders the
reading's `interval_start` as "HH:MM" in the configured local time zone. -/
def claimC9 : Prop :=
  ∀ (series : String) (rate_data : RateData) (account_name : String)
    (measurement : Measurement) (off : Int) (tags : List (String × String)),
    rate_data.unit_rate_zone = some off →
    tags_for_measurement series rate_data account_name measurement = .ok tags →
    getEntry tags "time_of_day" = some (localHM off measurement.interval_start)

/-- Claim C10 as stated: on a chain of two or more pages, the first page's
results come first and the remaining pages' results follow in reverse fetch
order. -/
def claimC10 : Prop :=
  ∀ (response : Response Nat) (rest : List (Response Nat)),
    chainOK (response :: rest) = true → rest ≠ [] →
    retrieve_paginated_data (response :: rest) =
      response.results ++ ((rest.map Response.results).reverse).flatten

/-! ### Helper lemmas -/

theorem tags_for_measurement_ok (series : String) (rate_data : RateData)
    (account_name : String) (measurement : Measurement) (r : String)
    (hr : active_rate_field series rate_data measurement = .ok r) :
    tags_for_measurement series rate_data account_name measurement =
      .ok [("active_rate", r),
           ("time_of_day", strftimeHM measurement.interval_start),
           ("account_name", account_name)] := by
  simp [tags_for_measurement, hr, Bind.bind, Except.bind, pure, Except.pure]

theorem fields_for_measurement_ok_no_agile (series : String) (rate_data : RateData)
    (measurement : Measurement) (r : String)
    (hr : active_rate_field series rate_data measurement = .ok r)
    (ha : rate_data.agile_unit_rates = []) :
    fields_for_measurement series rate_data measurement =
      .ok [("consumption", converted_consumption rate_data measurement),
           ("cost", converted_consumption rate_data measurement * rateValue rate_data r),
           ("total_cost",
             converted_consumption rate_data measurement * rateValue rate_data r +
               rate_data.standing_charge / 48),
           ("rate", rateValue rate_data r)] := by
  simp [fields_for_measurement, hr, ha, Bind.bind, Except.bind, pure, Except.pure]

theorem fields_for_measurement_ok_agile (series : String) (rate_data : RateData)
    (measurement : Measurement) (r : String)
    (hr : active_rate_field series rate_data measurement = .ok r)
    (ha : rate_data.agile_unit_rates.isEmpty = false) :
    fields_for_measurement series rate_data measurement =
      .ok [("consumption", converted_consumption rate_data measurement),
           ("cost", converted_consumption rate_data measurement * rateValue rate_data r),
           ("total_cost",
             converted_consumption rate_data measurement * rateValue rate_data r +
               rate_data.standing_charge / 48),
           ("rate", rateValue rate_data r),
           ("agile_rate",
             (agileRatesDict rate_data.agile_unit_rates
               (iso8601 measurement.interval_start)).getD (rateValue rate_data r)),
           ("agile_cost",
             (agileRatesDict rate_data.agile_unit_rates
               (iso8601 measurement.interval_start)).getD (rateValue rate_data r) *
               converted_consumption rate_data measurement),
           ("agile_total_cost",
             (agileRatesDict rate_data.agile_unit_rates
               (iso8601 measurement.interval_start)).getD (rateValue rate_data r) *
               converted_consumption rate_data measurement +
               rate_data.agile_standing_charge / 48)] := by
  simp [fields_for_measurement, hr, ha, Bind.bind, Except.bind, pure, Except.pure]

theorem mapExcept_ok_mem {α β : Type} (f : α → Except String β) :
    ∀ (l : List α) (bs : List β), mapExcept f l = .ok bs →
      ∀ b ∈ bs, ∃ a ∈ l, f a = .ok b := by
  intro l
  induction l with
  | nil =>
      intro bs h b hb
      simp [mapExcept] at h
      subst h
      simp at hb
  | cons a rest ih =>
      intro bs h b hb
      cases hfa : f a with
      | error e => simp [mapExcept, hfa, Bind.bind, Except.bind] at h
      | ok b0 =>
        cases hrest : mapExcept f rest with
        | error e =>
            simp [mapExcept, hfa, hrest, Bind.bind, Except.bind] at h
        | ok bs0 =>
            simp [mapExcept, hfa, hrest, Bind.bind, Except.bind, pure, Except.pure] at h
            subst h
            rcases List.mem_cons.mp hb with hb | hb
            · exact ⟨a, List.mem_cons_self a rest, hb ▸ hfa⟩
            · rcases ih bs0 hrest b hb with ⟨a0, ha0, hfa0⟩
              exact ⟨a0, List.mem_cons_of_mem a ha0, hfa0⟩

theorem point_for_measurement_ok (series account_name : String) (rate_data : RateData)
    (measurement : Measurement) (p : Point)
    (h : point_for_measurement series account_name rate_data measurement = .ok p) :
    tags_for_measurement series rate_data account_name measurement = .ok p.tags ∧
    fields_for_measurement series rate_data measurement = .ok p.fields ∧
    p.measurement = series ∧ p.time = measurement.interval_start := by
  cases ht : tags_for_measurement series rate_data account_name measurement with
  | error e => simp [point_for_measurement, ht, Bind.bind, Except.bind] at h
  | ok tags =>
    cases hf : fields_for_measurement series rate_data measurement with
    | error e => simp [point_for_measurement, ht, hf, Bind.bind, Except.bind] at h
    | ok fields =>
      simp [point_for_measurement, ht, hf, Bind.bind, Except.bind, pure, Except.pure] at h
      subst h
      exact ⟨rfl, rfl, rfl, rfl⟩

/-- A successful `fields_for_measurement` run contains a successful rate
resolution. -/
theorem fields_for_measurement_ok_rate (series : String) (rate_data : RateData)
    (measurement : Measurement) (fields : List (String × ℚ))
    (h : fields_for_measurement series rate_data measurement = .ok fields) :
    ∃ r, active_rate_field series rate_data measurement = .ok r := by
  cases hr : active_rate_field series rate_data measurement with
  | error e => simp [fields_for_measurement, hr, Bind.bind, Except.bind] at h
  | ok r => exact ⟨r, rfl⟩

/-- Shape of `active_rate_field` for an electricity reading with a
configured zone. -/
theorem active_rate_field_elec_zone (rate_data : RateData) (measurement : Measurement)
    (off : Int) (hz : rate_data.unit_rate_zone = some off) :
    active_rate_field "electricity" rate_data measurement =
      (if low_window_bound off rate_data.unit_rate_low_end measurement.interval_start <
          low_window_bound off rate_data.unit_rate_low_start measurement.interval_start then
        .error "MayaInterval cannot end before it starts"
      else if low_window_bound off rate_data.unit_rate_low_start measurement.interval_start ≤
            measurement.interval_start ∧
          measurement.interval_start <
            low_window_bound off rate_data.unit_rate_low_end measurement.interval_start then
        .ok "unit_rate_low"
      else .ok "unit_rate_high") := by
  simp [active_rate_field, hz]

/-- Claim C1: with a configured zone (and a coherent window, start clock
strictly before end clock), an electricity reading resolves to
`unit_rate_low` exactly when its instant lies in the half-open window
`[low_start, low_end)` built by substituting the configured clock times
into the reading's local calendar date in that zone, and to
`unit_rate_high` otherwise; an instant equal to `low_start` is inside and
an instant equal to `low_end` is outside. -/
theorem C1_unit_rate_low_window (rate_data : RateData) (measurement : Measurement)
    (off : Int) (hz : rate_data.unit_rate_zone = some off)
    (hlt : rate_data.unit_rate_low_start < rate_data.unit_rate_low_end) :
    (active_rate_field "electricity" rate_data measurement = .ok "unit_rate_low" ↔
      (low_window_bound off rate_data.unit_rate_low_start measurement.interval_start ≤
          measurement.interval_start ∧
        measurement.interval_start <
          low_window_bound off rate_data.unit_rate_low_end measurement.interval_start)) ∧
    (active_rate_field "electricity" rate_data measurement = .ok "unit_rate_high" ↔
      ¬(low_window_bound off rate_data.unit_rate_low_start measurement.interval_start ≤
          measurement.interval_start ∧
        measurement.interval_start <
          low_window_bound off rate_data.unit_rate_low_end measurement.interval_start)) ∧
    (measurement.interval_start =
        low_window_bound off rate_data.unit_rate_low_start measurement.interval_start →
      active_rate_field "electricity" rate_data measurement = .ok "unit_rate_low") ∧
    (measurement.interval_start =
        low_window_bound off rate_data.unit_rate_low_end measurement.interval_start →
      active_rate_field "electricity" rate_data measurement = .ok "unit_rate_high") := by
  rw [active_rate_field_elec_zone rate_data measurement off hz]
  set t := measurement.interval_start with ht
  set a := low_window_bound off rate_data.unit_rate_low_start t with ha
  set b := low_window_bound off rate_data.unit_rate_low_end t with hb
  have hab : a < b := by
    rw [ha, hb]
    simp only [low_window_bound]
    omega
  rw [if_neg (by omega : ¬b < a)]
  by_cases hmem : a ≤ t ∧ t < b
  · rw [if_pos hmem]
    refine ⟨iff_of_true rfl hmem, iff_of_false (by simp) (not_not_intro hmem),
      fun _ => rfl, fun heq => ?_⟩
    exfalso
    omega
  · rw [if_neg hmem]
    refine ⟨iff_of_false (by simp) hmem, iff_of_true rfl hmem,
      fun heq => ?_, fun _ => rfl⟩
    exfalso
    omega

theorem C1_unit_rate_low_window_witness :
    active_rate_field "electricity"
      { unit_rate_zone := some 0, unit_rate_low_start := 60, unit_rate_low_end := 120 }
      ⟨60, 1⟩ = .ok "unit_rate_low" ∧
    active_rate_field "electricity"
      { unit_rate_zone := some 0, unit_rate_low_start := 60, unit_rate_low_end := 120 }
      ⟨120, 1⟩ = .ok "unit_rate_high" :=
  ⟨(C1_unit_rate_low_window _ ⟨60, 1⟩ 0 rfl (by decide)).2.2.1 (by decide),
   (C1_unit_rate_low_window _ ⟨120, 1⟩ 0 rfl (by decide)).2.2.2 (by decide)⟩

/-- Claim C2 is refuted at the configuration default "00:00"–"00:00": with
equal start and end clocks the `MayaInterval` is empty but legal, and the
reading resolves to `unit_rate_high` instead of raising. -/
theorem C2_counterexample : ¬claimC2 := by
  intro h
  rcases h { unit_rate_zone := some 0 } 0 ⟨0, 0⟩ rfl (by decide) with ⟨e, he⟩
  rw [show active_rate_field "electricity" { unit_rate_zone := some 0 } ⟨0, 0⟩ =
    .ok "unit_rate_high" from rfl] at he
  exact Except.noConfusion he

/-- Claim C2 amended: with a configured zone, rate resolution raises exactly
when the start clock is strictly later than the end clock (midnight-spanning
windows such as "23:00"–"05:00"), and that error makes processing of any
electricity reading list fail; with equal clocks (the "00:00"–"00:00"
default) the window is empty, nothing raises, and every electricity reading
resolves to `unit_rate_high`. -/
theorem C2_amended (rate_data : RateData) (off : Int) (measurement : Measurement)
    (hz : rate_data.unit_rate_zone = some off) :
    (rate_data.unit_rate_low_end < rate_data.unit_rate_low_start →
      active_rate_field "electricity" rate_data measurement =
        .error "MayaInterval cannot end before it starts" ∧
      ∀ (account_name : String) (metrics : List Measurement),
        store_series "electricity" account_name (measurement :: metrics) rate_data =
          .error "MayaInterval cannot end before it starts") ∧
    (rate_data.unit_rate_low_end = rate_data.unit_rate_low_start →
      active_rate_field "electricity" rate_data measurement = .ok "unit_rate_high") := by
  have hshape := active_rate_field_elec_zone rate_data measurement off hz
  set t := measurement.interval_start with ht
  set a := low_window_bound off rate_data.unit_rate_low_start t with ha
  set b := low_window_bound off rate_data.unit_rate_low_end t with hb
  have hdiff : b - a = rate_data.unit_rate_low_end - rate_data.unit_rate_low_start := by
    rw [ha, hb]
    simp only [low_window_bound]
    omega
  constructor
  · intro hgt
    have herr : active_rate_field "electricity" rate_data measurement =
        .error "MayaInterval cannot end before it starts" := by
      rw [hshape, if_pos (by omega)]
    refine ⟨herr, fun account_name metrics => ?_⟩
    simp [store_series, mapExcept, point_for_measurement, tags_for_measurement, herr,
      Bind.bind, Except.bind]
  · intro heqc
    rw [hshape, if_neg (by omega), if_neg (by omega)]

theorem C2_amended_witness :
    active_rate_field "electricity"
      { unit_rate_zone := some 0, unit_rate_low_start := 1380, unit_rate_low_end := 300 }
      ⟨0, 0⟩ = .error "MayaInterval cannot end before it starts" ∧
    store_series "electricity" "home" [⟨0, 0⟩]
      { unit_rate_zone := some 0, unit_rate_low_start := 1380, unit_rate_low_end := 300 } =
      .error "MayaInterval cannot end before it starts" ∧
    active_rate_field "electricity"
      { unit_rate_zone := some 0, unit_rate_low_start := 0, unit_rate_low_end := 0 }
      ⟨0, 0⟩ = .ok "unit_rate_high" := by
  have h1 := (C2_amended (⟨0, 0, 0, 0, 1380, 300, some 0, 0, [], none⟩ : RateData)
    0 ⟨0, 0⟩ rfl).1 (by decide)
  have h2 := (C2_amended (⟨0, 0, 0, 0, 0, 0, some 0, 0, [], none⟩ : RateData)
    0 ⟨0, 0⟩ rfl).2 (by decide)
  exact ⟨h1.1, h1.2 "home" [], h2⟩

/-- Claim C6: gas readings always resolve to `unit_rate`, and electricity
readings with a falsy `unit_rate_zone` always resolve to `unit_rate_high`. -/
theorem C6_gas_and_no_zone (rate_data : RateData) (measurement : Measurement) :
    active_rate_field "gas" rate_data measurement = .ok "unit_rate" ∧
    (rate_data.unit_rate_zone = none →
      active_rate_field "electricity" rate_data measurement = .ok "unit_rate_high") := by
  constructor
  · simp [active_rate_field]
  · intro hz
    simp [active_rate_field, hz]

theorem C6_gas_and_no_zone_witness :
    active_rate_field "gas" {} ⟨0, 0⟩ = .ok "unit_rate" ∧
    active_rate_field "electricity" {} ⟨0, 0⟩ = .ok "unit_rate_high" :=
  ⟨(C6_gas_and_no_zone {} ⟨0, 0⟩).1, (C6_gas_and_no_zone {} ⟨0, 0⟩).2 rfl⟩

/-- A successful `fields_for_measurement` run yields exactly one of the two
field lists: the base fields, or the base fields with the agile fields
appended, according to whether the agile table is empty. -/
theorem fields_for_measurement_ok_cases (series : String) (rate_data : RateData)
    (measurement : Measurement) (fields : List (String × ℚ))
    (hfields : fields_for_measurement series rate_data measurement = .ok fields) :
    ∃ r, active_rate_field series rate_data measurement = .ok r ∧
      (fields =
          [("consumption", converted_consumption rate_data measurement),
           ("cost", converted_consumption rate_data measurement * rateValue rate_data r),
           ("total_cost",
             converted_consumption rate_data measurement * rateValue rate_data r +
               rate_data.standing_charge / 48),
           ("rate", rateValue rate_data r)] ∧
        rate_data.agile_unit_rates = [] ∨
      fields =
          [("consumption", converted_consumption rate_data measurement),
           ("cost", converted_consumption rate_data measurement * rateValue rate_data r),
           ("total_cost",
             converted_consumption rate_data measurement * rateValue rate_data r +
               rate_data.standing_charge / 48),
           ("rate", rateValue rate_data r),
           ("agile_rate",
             (agileRatesDict rate_data.agile_unit_rates
               (iso8601 measurement.interval_start)).getD (rateValue rate_data r)),
           ("agile_cost",
             (agileRatesDict rate_data.agile_unit_rates
               (iso8601 measurement.interval_start)).getD (rateValue rate_data r) *
               converted_consumption rate_data measurement),
           ("agile_total_cost",
             (agileRatesDict rate_data.agile_unit_rates
               (iso8601 measurement.interval_start)).getD (rateValue rate_data r) *
               converted_consumption rate_data measurement +
               rate_data.agile_standing_charge / 48)] ∧
        rate_data.agile_unit_rates.isEmpty = false) := by
  rcases fields_for_measurement_ok_rate series rate_data measurement fields hfields
    with ⟨r, hr⟩
  refine ⟨r, hr, ?_⟩
  cases hae : rate_data.agile_unit_rates.isEmpty with
  | true =>
      have ha : rate_data.agile_unit_rates = [] := by
        cases hl : rate_data.agile_unit_rates
        · rfl
        · rw [hl] at hae
          simp at hae
      left
      rw [fields_for_measurement_ok_no_agile series rate_data measurement r hr ha]
        at hfields
      simp only [Except.ok.injEq] at hfields
      exact ⟨hfields.symm, ha⟩
  | false =>
      right
      rw [fields_for_measurement_ok_agile series rate_data measurement r hr hae]
        at hfields
      simp only [Except.ok.injEq] at hfields
      exact ⟨hfields.symm, rfl⟩

/-- Claim C3: with a non-empty agile table, `agile_rate` is the table entry
keyed by the ISO-8601 rendering of the reading's `interval_start`, with the
already-resolved rate value as fallback; the fields are produced (no raise)
whether or not the entry exists. -/
theorem C3_agile_fallback (series : String) (rate_data : RateData)
    (measurement : Measurement) (r : String)
    (hne : rate_data.agile_unit_rates ≠ [])
    (hr : active_rate_field series rate_data measurement = .ok r) :
    ∃ fields, fields_for_measurement series rate_data measurement = .ok fields ∧
      getEntry fields "agile_rate" =
        some ((agileRatesDict rate_data.agile_unit_rates
          (iso8601 measurement.interval_start)).getD (rateValue rate_data r)) ∧
      (agileRatesDict rate_data.agile_unit_rates (iso8601 measurement.interval_start) =
          none →
        getEntry fields "agile_rate" = some (rateValue rate_data r)) := by
  have hae : rate_data.agile_unit_rates.isEmpty = false := by
    cases hl : rate_data.agile_unit_rates
    · exact absurd hl hne
    · rfl
  refine ⟨_, fields_for_measurement_ok_agile series rate_data measurement r hr hae,
    ?_, ?_⟩
  · simp [getEntry]
  · intro hnone
    simp [getEntry, hnone]

theorem C3_agile_fallback_witness :
    ∃ fields,
      fields_for_measurement "electricity"
        ⟨0, 0, 20, 0, 0, 0, none, 48, [("1970-01-01T00:30:00+00:00", 7)], none⟩
        ⟨30, 2⟩ = .ok fields ∧
      getEntry fields "agile_rate" =
        some ((agileRatesDict [("1970-01-01T00:30:00+00:00", 7)]
          (iso8601 30)).getD
            (rateValue
              ⟨0, 0, 20, 0, 0, 0, none, 48, [("1970-01-01T00:30:00+00:00", 7)], none⟩
              "unit_rate_high")) ∧
      (agileRatesDict [("1970-01-01T00:30:00+00:00", 7)] (iso8601 30) = none →
        getEntry fields "agile_rate" =
          some (rateValue
            ⟨0, 0, 20, 0, 0, 0, none, 48, [("1970-01-01T00:30:00+00:00", 7)], none⟩
            "unit_rate_high")) :=
  C3_agile_fallback "electricity"
    ⟨0, 0, 20, 0, 0, 0, none, 48, [("1970-01-01T00:30:00+00:00", 7)], none⟩
    ⟨30, 2⟩ "unit_rate_high" (by decide) rfl

/-- Claim C4: on every emitted point, `total_cost` equals `cost` plus
`standing_charge / 48` exactly, and whenever `agile_cost` is emitted,
`agile_total_cost` equals `agile_cost` plus `agile_standing_charge / 48`. -/
theorem C4_total_cost (series account_name : String) (rate_data : RateData)
    (metrics : List Measurement) (points : List Point)
    (hs : store_series series account_name metrics rate_data = .ok points) :
    ∀ p ∈ points,
      (∃ c, getEntry p.fields "cost" = some c ∧
        getEntry p.fields "total_cost" = some (c + rate_data.standing_charge / 48)) ∧
      (∀ ac, getEntry p.fields "agile_cost" = some ac →
        getEntry p.fields "agile_total_cost" =
          some (ac + rate_data.agile_standing_charge / 48)) := by
  intro p hp
  rcases mapExcept_ok_mem _ metrics points hs p hp with ⟨m, hm, hpm⟩
  rcases point_for_measurement_ok series account_name rate_data m p hpm with ⟨-, hf, -, -⟩
  rcases fields_for_measurement_ok_cases series rate_data m p.fields hf with
    ⟨r, hr, hcase⟩
  rcases hcase with ⟨hfe, -⟩ | ⟨hfe, -⟩
  · rw [hfe]
    refine ⟨⟨converted_consumption rate_data m * rateValue rate_data r, ?_, ?_⟩, ?_⟩
    · simp [getEntry]
    · simp [getEntry]
    · intro ac hac
      simp [getEntry] at hac
  · rw [hfe]
    refine ⟨⟨converted_consumption rate_data m * rateValue rate_data r, ?_, ?_⟩, ?_⟩
    · simp [getEntry]
    · simp [getEntry]
    · intro ac hac
      simp [getEntry] at hac ⊢
      rw [hac]

theorem C4_total_cost_witness :
    (∃ c, getEntry [("consumption", (10 : ℚ)), ("cost", 50), ("total_cost", 51), ("rate", 5)]
        "cost" = some c ∧
      getEntry [("consumption", (10 : ℚ)), ("cost", 50), ("total_cost", 51), ("rate", 5)]
        "total_cost" = some (c + 48 / 48)) ∧
    (∀ ac, getEntry [("consumption", (10 : ℚ)), ("cost", 50), ("total_cost", 51), ("rate", 5)]
        "agile_cost" = some ac →
      getEntry [("consumption", (10 : ℚ)), ("cost", 50), ("total_cost", 51), ("rate", 5)]
        "agile_total_cost" = some (ac + 0 / 48)) :=
  (C4_total_cost "gas" "home" ⟨48, 5, 0, 0, 0, 0, none, 0, [], none⟩ [⟨0, 10⟩]
    [⟨"gas", [("active_rate", "unit_rate"), ("time_of_day", "00:00"), ("account_name", "home")],
      0, [("consumption", 10), ("cost", 50), ("total_cost", 51), ("rate", 5)]⟩]
    (by
      simp [store_series, mapExcept, point_for_measurement, tags_for_measurement,
        fields_for_measurement, active_rate_field, converted_consumption, rateValue,
        strftimeHM, hhmmOfMinute, pad2, Bind.bind, Except.bind, pure, Except.pure]
      norm_num
      decide))
    ⟨"gas", [("active_rate", "unit_rate"), ("time_of_day", "00:00"), ("account_name", "home")],
      0, [("consumption", 10), ("cost", 50), ("total_cost", 51), ("rate", 5)]⟩
    (by simp)

/-- Claim C5 is refuted by a set-but-zero conversion factor: Python's
`if conversion_factor:` treats `0.0` as falsy, so the raw consumption is
emitted unmultiplied rather than multiplied by the set factor. -/
theorem C5_counterexample : ¬claimC5 := by
  intro h
  have hfl : fields_for_measurement "gas" ⟨0, 5, 0, 0, 0, 0, none, 0, [], some 0⟩ ⟨0, 10⟩ =
      .ok [("consumption", 10), ("cost", 50), ("total_cost", 50), ("rate", 5)] := by
    simp [fields_for_measurement, active_rate_field, converted_consumption, rateValue,
      Bind.bind, Except.bind, pure, Except.pure]
    norm_num
  have h1 := (h "gas" ⟨0, 5, 0, 0, 0, 0, none, 0, [], some 0⟩ ⟨0, 10⟩ _ hfl).1 0 rfl
  simp [getEntry] at h1

/-- Claim C5 amended: the consumption is multiplied by the conversion
factor iff the factor is set AND non-zero (Python truthiness of
`conversion_factor`); when the factor is unset, or set to zero, the raw
consumption is emitted exactly. -/
theorem C5_amended (series : String) (rate_data : RateData) (measurement : Measurement)
    (fields : List (String × ℚ))
    (hfields : fields_for_measurement series rate_data measurement = .ok fields) :
    (∀ cf, rate_data.conversion_factor = some cf → cf ≠ 0 →
      getEntry fields "consumption" = some (measurement.consumption * cf)) ∧
    (rate_data.conversion_factor = none ∨ rate_data.conversion_factor = some 0 →
      getEntry fields "consumption" = some measurement.consumption) := by
  rcases fields_for_measurement_ok_cases series rate_data measurement fields hfields with
    ⟨r, hr, hcase⟩
  have hcons : getEntry fields "consumption" =
      some (converted_consumption rate_data measurement) := by
    rcases hcase with ⟨hfe, -⟩ | ⟨hfe, -⟩ <;> rw [hfe] <;> simp [getEntry]
  constructor
  · intro cf hcf hne
    rw [hcons]
    simp [converted_consumption, hcf, hne]
  · rintro (hcf | hcf) <;> rw [hcons] <;> simp [converted_consumption, hcf]

theorem C5_amended_witness :
    getEntry [("consumption", (20 : ℚ)), ("cost", 0), ("total_cost", 0), ("rate", 0)]
      "consumption" = some ((10 : ℚ) * 2) :=
  (C5_amended "gas" ⟨0, 0, 0, 0, 0, 0, none, 0, [], some 2⟩ ⟨0, 10⟩
    [("consumption", 20), ("cost", 0), ("total_cost", 0), ("rate", 0)]
    (by
      simp [fields_for_measurement, active_rate_field, converted_consumption, rateValue,
        Bind.bind, Except.bind, pure, Except.pure]
      norm_num)).1 2 rfl (by norm_num)

/-- Claim C7: when the catalog carries no agile table, none of the fields
`agile_rate`, `agile_cost`, `agile_total_cost` appear in any emitted
point's field set. -/
theorem C7_no_agile_fields (series account_name : String) (rate_data : RateData)
    (metrics : List Measurement) (points : List Point)
    (ha : rate_data.agile_unit_rates = [])
    (hs : store_series series account_name metrics rate_data = .ok points) :
    ∀ p ∈ points,
      getEntry p.fields "agile_rate" = none ∧
      getEntry p.fields "agile_cost" = none ∧
      getEntry p.fields "agile_total_cost" = none := by
  intro p hp
  rcases mapExcept_ok_mem _ metrics points hs p hp with ⟨m, hm, hpm⟩
  rcases point_for_measurement_ok series account_name rate_data m p hpm with ⟨-, hf, -, -⟩
  rcases fields_for_measurement_ok_cases series rate_data m p.fields hf with ⟨r, hr, hcase⟩
  rcases hcase with ⟨hfe, -⟩ | ⟨-, hne⟩
  · rw [hfe]
    refine ⟨?_, ?_, ?_⟩ <;> simp [getEntry]
  · rw [ha] at hne
    simp at hne

theorem C7_no_agile_fields_witness :
    getEntry [("consumption", (10 : ℚ)), ("cost", 50), ("total_cost", 51), ("rate", 5)]
      "agile_rate" = none ∧
    getEntry [("consumption", (10 : ℚ)), ("cost", 50), ("total_cost", 51), ("rate", 5)]
      "agile_cost" = none ∧
    getEntry [("consumption", (10 : ℚ)), ("cost", 50), ("total_cost", 51), ("rate", 5)]
      "agile_total_cost" = none :=
  (C7_no_agile_fields "gas" "home" ⟨48, 5, 0, 0, 0, 0, none, 0, [], none⟩ [⟨0, 10⟩]
    [⟨"gas", [("active_rate", "unit_rate"), ("time_of_day", "00:00"), ("account_name", "home")],
      0, [("consumption", 10), ("cost", 50), ("total_cost", 51), ("rate", 5)]⟩]
    rfl
    (by
      simp [store_series, mapExcept, point_for_measurement, tags_for_measurement,
        fields_for_measurement, active_rate_field, converted_consumption, rateValue,
        strftimeHM, hhmmOfMinute, pad2, Bind.bind, Except.bind, pure, Except.pure]
      norm_num
      decide))
    ⟨"gas", [("active_rate", "unit_rate"), ("time_of_day", "00:00"), ("account_name", "home")],
      0, [("consumption", 10), ("cost", 50), ("total_cost", 51), ("rate", 5)]⟩
    (by simp)

/-- Claim C8 is refuted by a configuration whose gas identifiers are
missing (gas not ignored) while the API key and electricity identifiers
are present: the electricity standing-charge request is made before the
gas-identifier error is raised. -/
theorem C8_counterexample : ¬claimC8 := by
  intro h
  have h2 := (h ⟨"key", some "mpan", some "serial", false, none, none⟩ (by decide)).2
  exact absurd h2 (by decide)

/-- Claim C8 amended: the missing-API-key and missing-electricity-identifier
errors abort the run before any network call; the missing-gas-identifier
error aborts the run before any further network call, but only after the
electricity standing-charge request has already been made; the three
messages are pairwise distinct. -/
theorem C8_amended (config : Config) :
    (config.api_key = "" → cmd config = [.clickError "No Octopus API key set"]) ∧
    (config.api_key ≠ "" → (truthy config.e_mpan && truthy config.e_serial) = false →
      cmd config = [.clickError "No electricity meter identifiers"]) ∧
    (config.api_key ≠ "" → (truthy config.e_mpan && truthy config.e_serial) = true →
      ((!truthy config.g_mprn || !truthy config.g_serial) && !config.g_ignore) = true →
      cmd config = [.networkCall "electricity-standing-charges",
        .clickError "No gas meter identifiers"]) ∧
    ("No Octopus API key set" ≠ "No electricity meter identifiers" ∧
      "No Octopus API key set" ≠ "No gas meter identifiers" ∧
      "No electricity meter identifiers" ≠ "No gas meter identifiers") := by
  refine ⟨?_, ?_, ?_, by decide⟩
  · intro h1
    simp [cmd, h1]
  · intro h1 h2
    simp [cmd, h1, h2]
  · intro h1 h2 h3
    simp [cmd, h1, h2, h3]

theorem C8_amended_witness :
    cmd ⟨"", none, none, false, none, none⟩ = [.clickError "No Octopus API key set"] ∧
    cmd ⟨"key", none, none, false, none, none⟩ =
      [.clickError "No electricity meter identifiers"] ∧
    cmd ⟨"key", some "mpan", some "serial", false, none, none⟩ =
      [.networkCall "electricity-standing-charges",
       .clickError "No gas meter identifiers"] :=
  ⟨(C8_amended _).1 rfl,
   (C8_amended _).2.1 (by decide) (by decide),
   (C8_amended _).2.2.1 (by decide) (by decide) (by decide)⟩

/-- Claim C9 is refuted by any configured zone at non-zero offset from UTC:
`period.datetime().strftime('%H:%M')` renders the UTC clock time, not the
configured zone's. -/
theorem C9_counterexample : ¬claimC9 := by
  intro h
  have h1 := h "gas" ⟨0, 0, 0, 0, 0, 0, some 60, 0, [], none⟩ "home" ⟨0, 0⟩ 60
    [("active_rate", "unit_rate"), ("time_of_day", strftimeHM 0), ("account_name", "home")]
    rfl (by decide)
  exact absurd h1 (by decide)

/-- Claim C9 amended: the `time_of_day` tag renders the reading's
`interval_start` as "HH:MM" in UTC (maya's `datetime()` default) regardless
of the configured zone, and each emitted point's timestamp is the reading's
`interval_start` verbatim. -/
theorem C9_amended (series account_name : String) (rate_data : RateData)
    (metrics : List Measurement) (points : List Point)
    (hs : store_series series account_name metrics rate_data = .ok points) :
    ∀ p ∈ points, ∃ m ∈ metrics,
      p.time = m.interval_start ∧
      getEntry p.tags "time_of_day" = some (strftimeHM m.interval_start) := by
  intro p hp
  rcases mapExcept_ok_mem _ metrics points hs p hp with ⟨m, hm, hpm⟩
  rcases point_for_measurement_ok series account_name rate_data m p hpm with
    ⟨htags, -, -, htime⟩
  cases hr : active_rate_field series rate_data m with
  | error e =>
      simp [tags_for_measurement, hr, Bind.bind, Except.bind] at htags
  | ok r =>
      rw [tags_for_measurement_ok series rate_data account_name m r hr] at htags
      simp only [Except.ok.injEq] at htags
      refine ⟨m, hm, htime, ?_⟩
      rw [← htags]
      simp [getEntry]

theorem C9_amended_witness :
    ∃ m ∈ [(⟨0, 10⟩ : Measurement)],
      (0 : Int) = m.interval_start ∧
      getEntry [("active_rate", "unit_rate"), ("time_of_day", "00:00"), ("account_name", "home")]
        "time_of_day" = some (strftimeHM m.interval_start) :=
  (C9_amended "gas" "home" ⟨48, 5, 0, 0, 0, 0, none, 0, [], none⟩ [⟨0, 10⟩]
    [⟨"gas", [("active_rate", "unit_rate"), ("time_of_day", "00:00"), ("account_name", "home")],
      0, [("consumption", 10), ("cost", 50), ("total_cost", 51), ("rate", 5)]⟩]
    (by
      simp [store_series, mapExcept, point_for_measurement, tags_for_measurement,
        fields_for_measurement, active_rate_field, converted_consumption, rateValue,
        strftimeHM, hhmmOfMinute, pad2, Bind.bind, Except.bind, pure, Except.pure]
      norm_num
      decide))
    ⟨"gas", [("active_rate", "unit_rate"), ("time_of_day", "00:00"), ("account_name", "home")],
      0, [("consumption", 10), ("cost", 50), ("total_cost", 51), ("rate", 5)]⟩
    (by simp)

/-- Claim C10 is refuted by a three-page chain with distinct results: the
recursion appends later pages in fetch order, not reversed. -/
theorem C10_counterexample : ¬claimC10 := by
  intro h
  have h3 := h ⟨[1], some 2⟩ [⟨[2], some 3⟩, ⟨[3], none⟩] (by decide) (by decide)
  exact absurd h3 (by decide)

/-- Claim C10 amended: for a fully-followed chain the pages' results are
concatenated in fetch order (first page's results first, each later page's
results after the pages fetched before it), and the returned list contains
every result of every page. -/
theorem C10_amended {α : Type} (chain : List (Response α)) (hok : chainOK chain = true) :
    retrieve_paginated_data chain = (chain.map Response.results).flatten ∧
    ∀ response ∈ chain, ∀ x ∈ response.results,
      x ∈ retrieve_paginated_data chain := by
  have hmain : ∀ c : List (Response α), chainOK c = true →
      retrieve_paginated_data c = (c.map Response.results).flatten := by
    intro c
    induction c with
    | nil => intro _; rfl
    | cons r rest ih =>
        intro hok2
        cases rest with
        | nil =>
            cases hn : r.next with
            | none => simp [retrieve_paginated_data, hn]
            | some p =>
                rw [chainOK, hn] at hok2
                simp at hok2
        | cons r2 rest2 =>
            have h2 : r.next.isSome = true ∧ chainOK (r2 :: rest2) = true := by
              simpa [chainOK, Bool.and_eq_true] using hok2
            cases hn : r.next with
            | none =>
                rw [hn] at h2
                simp at h2
            | some p =>
                have hstep : retrieve_paginated_data (r :: r2 :: rest2) =
                    r.results ++ retrieve_paginated_data (r2 :: rest2) := by
                  simp [retrieve_paginated_data, hn]
                rw [hstep, ih h2.2]
                simp
  refine ⟨hmain chain hok, ?_⟩
  intro response hresp x hx
  rw [hmain chain hok]
  exact List.mem_flatten.mpr ⟨response.results, List.mem_map_of_mem _ hresp, hx⟩

theorem C10_amended_witness :
    retrieve_paginated_data [⟨[1, 2], some 2⟩, ⟨[3], none⟩] =
      ([(⟨[1, 2], some 2⟩ : Response Nat), ⟨[3], none⟩].map Response.results).flatten ∧
    ∀ response ∈ [(⟨[1, 2], some 2⟩ : Response Nat), ⟨[3], none⟩],
      ∀ x ∈ response.results,
        x ∈ retrieve_paginated_data [⟨[1, 2], some 2⟩, ⟨[3], none⟩] :=
  C10_amended _ (by decide)

end Octograph
